import Mathlib

/-!
Verification of the SocialSieve backend core: the usage ledger
(`backend/models/user.py`), the summarization-response parser
(`backend/services/ollama_service.py`), the voice and text ingestion
pipelines (`backend/routers/voice.py`, `backend/routers/text.py`), the
history accessors, and account creation (`backend/routers/auth.py`),
embedded shallowly as pure Lean functions over explicit state.
-/

namespace SocialSieve

/-- A Python `datetime` value, reduced to the fields this code observes:
calendar year and month, plus an opaque remainder standing for the day and
time of day within the month, so that two datetimes in the same calendar
month need not be equal. -/
structure PyDatetime where
  year : Int
  month : Int
  rest : Nat
  deriving DecidableEq

/-- `UsageStats` from `backend/models/user.py`: the per-account usage ledger. -/
structure UsageStats where
  voice_minutes_used : Int
  comments_analyzed : Int
  last_reset : PyDatetime
  deriving DecidableEq

/-- `UserLimits` from `backend/models/user.py`. -/
structure UserLimits where
  voice_minutes_per_month : Int
  comments_per_month : Int
  deriving DecidableEq

/-- The pydantic defaults of `UserLimits` (30 voice minutes, 20 text analyses). -/
def defaultLimits : UserLimits :=
  { voice_minutes_per_month := 30, comments_per_month := 20 }

/-- The pydantic defaults of `UsageStats`: zeroed counters, `last_reset = utcnow()`. -/
def defaultUsage (now : PyDatetime) : UsageStats :=
  { voice_minutes_used := 0, comments_analyzed := 0, last_reset := now }

/-- `User` from `backend/models/user.py`.  The Mongo document id is kept as a
string, matching how the routers compare it (`str(current_user.id)`). -/
structure User where
  id : String
  email : String
  name : String
  password_hash : String
  plan : String
  usage : UsageStats
  limits : UserLimits
  is_active : Bool
  created_at : PyDatetime
  updated_at : PyDatetime
  deriving DecidableEq

/-- `User.reset_usage_if_needed`: if the wall-clock month or year differs from
`last_reset`'s, zero both counters and stamp `last_reset = now`.  The wall
clock `datetime.utcnow()` is passed explicitly as `now`. -/
def reset_usage_if_needed (u : User) (now : PyDatetime) : User :=
  if u.usage.last_reset.month ≠ now.month ∨ u.usage.last_reset.year ≠ now.year then
    { u with usage :=
        { voice_minutes_used := 0, comments_analyzed := 0, last_reset := now } }
  else u

/-- `User.check_voice_limit(duration_minutes)`: applies the reset, passes
unconditionally for the unlimited plans `pro` and `creator`, otherwise checks
`voice_minutes_used + duration_minutes <= voice_minutes_per_month`.  The
method mutates `self` through the reset, so it returns the updated in-memory
user together with the boolean. -/
def check_voice_limit (u : User) (now : PyDatetime) (duration_minutes : Int) :
    User × Bool :=
  let u := reset_usage_if_needed u now
  if u.plan = "pro" ∨ u.plan = "creator" then (u, true)
  else (u, decide (u.usage.voice_minutes_used + duration_minutes ≤
                   u.limits.voice_minutes_per_month))

/-- `User.check_comment_limit()`: applies the reset, passes unconditionally for
`pro` and `creator`, otherwise checks `comments_analyzed < comments_per_month`. -/
def check_comment_limit (u : User) (now : PyDatetime) : User × Bool :=
  let u := reset_usage_if_needed u now
  if u.plan = "pro" ∨ u.plan = "creator" then (u, true)
  else (u, decide (u.usage.comments_analyzed < u.limits.comments_per_month))

/-- `User.increment_voice_usage(duration_minutes)`: applies the reset, adds the
minutes to `voice_minutes_used`, stamps `updated_at`, and saves. -/
def increment_voice_usage (u : User) (duration_minutes : Int) (now : PyDatetime) :
    User :=
  let u := reset_usage_if_needed u now
  { u with
    usage := { u.usage with
               voice_minutes_used := u.usage.voice_minutes_used + duration_minutes },
    updated_at := now }

/-- `User.increment_comment_usage()`: applies the reset, increments
`comments_analyzed` by one, stamps `updated_at`, and saves. -/
def increment_comment_usage (u : User) (now : PyDatetime) : User :=
  let u := reset_usage_if_needed u now
  { u with
    usage := { u.usage with comments_analyzed := u.usage.comments_analyzed + 1 },
    updated_at := now }

/-- The voice-minute cost charged by `analyze_voice` in
`backend/routers/voice.py`: `max(1, duration_seconds // 60)`. -/
def durationMinutes (duration_seconds : Nat) : Nat :=
  max 1 (duration_seconds / 60)

/-- The reset is a no-op when `now` falls in the same calendar month and year
as the ledger's `last_reset`. -/
theorem reset_noop (u : User) (now : PyDatetime)
    (hm : u.usage.last_reset.month = now.month)
    (hy : u.usage.last_reset.year = now.year) :
    reset_usage_if_needed u now = u := by
  unfold reset_usage_if_needed
  rw [if_neg]
  push_neg
  exact ⟨hm, hy⟩

/-- A sample account used to instantiate the quantified theorems: a free-plan
user with 10 voice minutes and 5 text analyses consumed in October 2026. -/
def sampleUser : User :=
  { id := "u1", email := "a@example.com", name := "A", password_hash := "h",
    plan := "free",
    usage := { voice_minutes_used := 10, comments_analyzed := 5,
               last_reset := ⟨2026, 10, 3⟩ },
    limits := defaultLimits, is_active := true,
    created_at := ⟨2026, 10, 3⟩, updated_at := ⟨2026, 10, 3⟩ }

/-- A wall-clock instant in the same calendar month as `sampleUser.usage.last_reset`. -/
def sampleNow : PyDatetime := ⟨2026, 10, 17⟩

/-- C2: for an account on a non-unlimited plan whose ledger needs no period
reset, `check_voice_limit m` returns true iff
`voice_minutes_used + m <= voice_minutes_per_month`, and `check_comment_limit`
returns true iff `comments_analyzed + 1 <= comments_per_month`; for an account
on plan `pro` or `creator`, both checks return true regardless of usage. -/
theorem check_limits_spec (u : User) (now : PyDatetime) (m : Int) :
    ((u.plan ≠ "pro" ∧ u.plan ≠ "creator") →
      u.usage.last_reset.month = now.month →
      u.usage.last_reset.year = now.year →
      (((check_voice_limit u now m).2 = true ↔
          u.usage.voice_minutes_used + m ≤ u.limits.voice_minutes_per_month) ∧
       ((check_comment_limit u now).2 = true ↔
          u.usage.comments_analyzed + 1 ≤ u.limits.comments_per_month))) ∧
    ((u.plan = "pro" ∨ u.plan = "creator") →
      (check_voice_limit u now m).2 = true ∧
      (check_comment_limit u now).2 = true) := by
  constructor
  · rintro ⟨h1, h2⟩ hm hy
    have hr := reset_noop u now hm hy
    constructor
    · unfold check_voice_limit
      rw [hr, if_neg (by push_neg; exact ⟨h1, h2⟩)]
      simp
    · unfold check_comment_limit
      rw [hr, if_neg (by push_neg; exact ⟨h1, h2⟩)]
      simp [Int.add_one_le_iff]
  · intro h
    have hplan : (reset_usage_if_needed u now).plan = u.plan := by
      unfold reset_usage_if_needed
      split <;> rfl
    constructor
    · unfold check_voice_limit
      rw [if_pos (by rw [hplan]; exact h)]
    · unfold check_comment_limit
      rw [if_pos (by rw [hplan]; exact h)]

/-- C2 witness: the quota checks evaluated on `sampleUser` (free plan,
10/30 voice minutes and 5/20 analyses used, no reset pending). -/
theorem check_limits_spec_witness :
    ((check_voice_limit sampleUser sampleNow 5).2 = true ↔
        sampleUser.usage.voice_minutes_used + 5 ≤
          sampleUser.limits.voice_minutes_per_month) ∧
    ((check_comment_limit sampleUser sampleNow).2 = true ↔
        sampleUser.usage.comments_analyzed + 1 ≤
          sampleUser.limits.comments_per_month) :=
  (check_limits_spec sampleUser sampleNow 5).1 (by constructor <;> decide) rfl rfl

/-- C8: `reset_usage_if_needed` is idempotent within a calendar period: after
one call, a second call at a wall-clock time whose (year, month) equals the
(year, month) of the ledger's `last_reset` changes nothing. -/
theorem reset_usage_idempotent (u : User) (t1 t2 : PyDatetime)
    (hm : (reset_usage_if_needed u t1).usage.last_reset.month = t2.month)
    (hy : (reset_usage_if_needed u t1).usage.last_reset.year = t2.year) :
    reset_usage_if_needed (reset_usage_if_needed u t1) t2 =
      reset_usage_if_needed u t1 :=
  reset_noop _ t2 hm hy

/-- C8 witness: a concrete ledger reset in November 2026 and reset again later
the same month. -/
theorem reset_usage_idempotent_witness :
    reset_usage_if_needed (reset_usage_if_needed sampleUser ⟨2026, 11, 2⟩)
        ⟨2026, 11, 20⟩ =
      reset_usage_if_needed sampleUser ⟨2026, 11, 2⟩ :=
  reset_usage_idempotent sampleUser ⟨2026, 11, 2⟩ ⟨2026, 11, 20⟩ (by decide)
    (by decide)

/-- C4: the charged voice cost is `max(1, duration_seconds // 60)`: durations
0–59s and 60–119s charge 1 minute, 120–179s charge 2 minutes. -/
theorem voice_minutes_charged (d : Nat) :
    durationMinutes d = max 1 (d / 60) ∧
    (d ≤ 59 → durationMinutes d = 1) ∧
    (60 ≤ d → d ≤ 119 → durationMinutes d = 1) ∧
    (120 ≤ d → d ≤ 179 → durationMinutes d = 2) := by
  refine ⟨rfl, ?_, ?_, ?_⟩ <;>
    · intros
      unfold durationMinutes
      rw [Nat.max_def]
      split <;> omega

/-- C4 witness: a 95-second clip charges 1 minute and a 150-second clip
charges 2 minutes. -/
theorem voice_minutes_charged_witness :
    durationMinutes 95 = 1 ∧ durationMinutes 150 = 2 :=
  ⟨(voice_minutes_charged 95).2.2.1 (by decide) (by decide),
   (voice_minutes_charged 150).2.2.2 (by decide) (by decide)⟩

/-! ### Summarization-response parsing (`backend/services/ollama_service.py`) -/

/-- Python `str.isspace` characters relevant to `str.strip()` (ASCII range):
space, tab, newline, carriage return, vertical tab, form feed. -/
def isPySpace (c : Char) : Bool :=
  c == ' ' || c == '\t' || c == '\n' || c == '\r' ||
    c == Char.ofNat 11 || c == Char.ofNat 12

/-- Python `str.strip()` on a character list: drop whitespace from both ends. -/
def stripL (l : List Char) : List Char :=
  ((l.dropWhile isPySpace).reverse.dropWhile isPySpace).reverse

/-- Python `str.strip()` on a string. -/
def pyStrip (s : String) : String := ⟨stripL s.data⟩

/-- Python `line.lstrip('•-* ')`: drop leading bullet markers and spaces. -/
def lstripBullet (l : List Char) : List Char :=
  l.dropWhile (fun c => c == '•' || c == '-' || c == '*' || c == ' ')

/-- Python `str.upper()` (the section markers scanned for are ASCII). -/
def upperL (l : List Char) : List Char := l.map Char.toUpper

/-- Python `needle in hay` substring containment on character lists. -/
def hasSub : List Char → List Char → Bool
  | [], needle => needle.isEmpty
  | c :: t, needle => needle.isPrefixOf (c :: t) || hasSub t needle

/-- Python `line.startswith('•') or line.startswith('-') or line.startswith('*')`. -/
def startsBullet : List Char → Bool
  | [] => false
  | c :: _ => c == '•' || c == '-' || c == '*'

/-- Python `analysis.split('\n')`: split on newlines, keeping empty pieces. -/
def splitNL : List Char → List (List Char)
  | [] => [[]]
  | c :: cs =>
    if c = '\n' then [] :: splitNL cs
    else
      match splitNL cs with
      | [] => [[c]]
      | l :: ls => (c :: l) :: ls

/-- The literal `SUMMARY` scanned for in upper-cased lines. -/
def summaryMark : List Char := "SUMMARY".data

/-- The literal `ACTION` scanned for in upper-cased lines. -/
def actionMark : List Char := "ACTION".data

/-- The parser's `current_section` variable (`None` / `'summary'` / `'action'`). -/
inductive Mode where
  | noMode
  | summary
  | action
  deriving DecidableEq

/-- The parsing loop of `OllamaService.analyze_transcript`, verbatim: each line
is stripped; a line whose upper-cased form contains `SUMMARY` (else `ACTION`)
switches the section and is consumed; a bulleted line is appended to the
summary accumulator (with a trailing newline) in summary mode, or, in action
mode, appended marker-stripped to the item list unless empty after stripping. -/
def scanCode : List (List Char) → Mode → List Char → List (List Char) →
    List Char × List (List Char)
  | [], _, acc, items => (acc, items)
  | l :: ls, sec, acc, items =>
    let line := stripL l
    if hasSub (upperL line) summaryMark then scanCode ls Mode.summary acc items
    else if hasSub (upperL line) actionMark then scanCode ls Mode.action acc items
    else if startsBullet line then
      match sec with
      | Mode.summary => scanCode ls sec (acc ++ line ++ ['\n']) items
      | Mode.action =>
        let item := stripL (lstripBullet line)
        if item.isEmpty then scanCode ls sec acc items
        else scanCode ls sec acc (items ++ [item])
      | Mode.noMode => scanCode ls sec acc items
    else scanCode ls sec acc items

/-- The result shape returned by `OllamaService.analyze_transcript`. -/
structure OllamaOutput where
  summary : String
  action_items : List String
  full_analysis : String
  deriving DecidableEq

/-- The fixed user-facing placeholder substituted on provider error. -/
def placeholderSummary : String :=
  "⚠️ AI analysis temporarily unavailable. Please try again."

/-- `OllamaService.analyze_transcript`: on a successful provider call, parse
the response text with the line scanner, falling back to the whole response
when no summary lines were collected, and strip the final summary; on any
provider error, return the fixed placeholder summary, no action items, and the
error detail recorded in `full_analysis`. -/
def analyze_transcript (providerResponse : Except String String) : OllamaOutput :=
  match providerResponse with
  | Except.ok analysis =>
    let scanned := scanCode (splitNL analysis.data) Mode.noMode [] []
    let summaryL := if scanned.1.isEmpty then analysis.data else scanned.1
    { summary := ⟨stripL summaryL⟩,
      action_items := scanned.2.map (fun l => (⟨l⟩ : String)),
      full_analysis := analysis }
  | Except.error e =>
    { summary := placeholderSummary,
      action_items := [],
      full_analysis := "Error: " ++ e }

/-- The line-scanning state machine as the specification words it: collect the
stripped bulleted lines seen in summary mode (as a list, to be newline-joined)
and the marker-stripped, non-empty action items seen in action mode, switching
mode on lines whose upper-cased form contains `SUMMARY` or `ACTION`. -/
def scanSpec : List (List Char) → Mode → List (List Char) × List (List Char)
  | [], _ => ([], [])
  | l :: ls, sec =>
    let line := stripL l
    if hasSub (upperL line) summaryMark then scanSpec ls Mode.summary
    else if hasSub (upperL line) actionMark then scanSpec ls Mode.action
    else if startsBullet line then
      match sec with
      | Mode.summary =>
        (line :: (scanSpec ls Mode.summary).1, (scanSpec ls Mode.summary).2)
      | Mode.action =>
        let item := stripL (lstripBullet line)
        if item.isEmpty then scanSpec ls Mode.action
        else ((scanSpec ls Mode.action).1, item :: (scanSpec ls Mode.action).2)
      | Mode.noMode => scanSpec ls Mode.noMode
    else scanSpec ls sec

/-- Concatenate lines, each followed by a newline (the code accumulator's shape). -/
def joinNL : List (List Char) → List Char
  | [] => []
  | s :: rest => s ++ '\n' :: joinNL rest

/-- Newline-join lines (the specification's "bulleted lines newline-joined"). -/
def interNL : List (List Char) → List Char
  | [] => []
  | [s] => s
  | s :: rest => s ++ '\n' :: interNL rest

/-- The head of a `dropWhile` result never satisfies the dropped predicate. -/
theorem dropWhile_head_false (p : Char → Bool) (l : List Char) :
    ∀ a ∈ (l.dropWhile p).head?, p a = false := by
  induction l with
  | nil => simp
  | cons b t ih =>
    intro a ha
    by_cases hb : p b
    · rw [List.dropWhile_cons_of_pos hb] at ha
      exact ih a ha
    · rw [List.dropWhile_cons_of_neg hb] at ha
      simp only [List.head?_cons, Option.mem_def, Option.some_inj] at ha
      subst ha
      exact Bool.eq_false_iff.mpr hb

/-- `dropWhile` is the identity when the head does not satisfy the predicate. -/
theorem dropWhile_eq_self_of_head (p : Char → Bool) (l : List Char)
    (h : ∀ a ∈ l.head?, p a = false) : l.dropWhile p = l := by
  cases l with
  | nil => rfl
  | cons b t =>
    apply List.dropWhile_cons_of_neg
    simp [h b (by simp)]

/-- A line with no leading and no trailing Python whitespace. -/
def CleanLine (s : List Char) : Prop :=
  s ≠ [] ∧ (∀ a ∈ s.head?, isPySpace a = false) ∧
    (∀ a ∈ s.getLast?, isPySpace a = false)

/-- The last character of a stripped line is never whitespace. -/
theorem stripL_getLast (l : List Char) :
    ∀ a ∈ (stripL l).getLast?, isPySpace a = false := by
  unfold stripL
  intro a ha
  rw [List.getLast?_reverse] at ha
  exact dropWhile_head_false isPySpace _ a ha

/-- A stripped line that begins with a bullet marker is clean. -/
theorem cleanLine_of_bullet (l : List Char) (h : startsBullet (stripL l) = true) :
    CleanLine (stripL l) := by
  rcases hc : stripL l with _ | ⟨c, t⟩
  · rw [hc] at h
    simp [startsBullet] at h
  · rw [hc] at h
    simp only [startsBullet, Bool.or_eq_true, beq_iff_eq] at h
    refine ⟨by simp, ?_, ?_⟩
    · intro a ha
      simp only [List.head?_cons, Option.mem_def, Option.some_inj] at ha
      subst ha
      rcases h with (h | h) | h <;> subst h <;> decide
    · intro a ha
      rw [← hc] at ha
      exact stripL_getLast l a ha

/-- Every summary line collected by the specification scan is a clean,
bullet-initial line. -/
theorem scanSpec_clean (ls : List (List Char)) (sec : Mode) :
    ∀ s ∈ (scanSpec ls sec).1, CleanLine s := by
  induction ls generalizing sec with
  | nil => simp [scanSpec]
  | cons l ls ih =>
    cases sec with
    | summary =>
      simp only [scanSpec]
      by_cases h1 : hasSub (upperL (stripL l)) summaryMark = true
      · rw [if_pos h1]
        exact ih Mode.summary
      · rw [if_neg h1]
        by_cases h2 : hasSub (upperL (stripL l)) actionMark = true
        · rw [if_pos h2]
          exact ih Mode.action
        · rw [if_neg h2]
          by_cases h3 : startsBullet (stripL l) = true
          · rw [if_pos h3]
            simp only [List.mem_cons]
            rintro s (rfl | hs)
            · exact cleanLine_of_bullet l h3
            · exact ih Mode.summary s hs
          · rw [if_neg h3]
            exact ih Mode.summary
    | action =>
      simp only [scanSpec]
      by_cases h1 : hasSub (upperL (stripL l)) summaryMark = true
      · rw [if_pos h1]
        exact ih Mode.summary
      · rw [if_neg h1]
        by_cases h2 : hasSub (upperL (stripL l)) actionMark = true
        · rw [if_pos h2]
          exact ih Mode.action
        · rw [if_neg h2]
          by_cases h3 : startsBullet (stripL l) = true
          · rw [if_pos h3]
            by_cases h4 : (stripL (lstripBullet (stripL l))).isEmpty = true
            · rw [if_pos h4]
              exact ih Mode.action
            · rw [if_neg h4]
              exact ih Mode.action
          · rw [if_neg h3]
            exact ih Mode.action
    | noMode =>
      simp only [scanSpec]
      by_cases h1 : hasSub (upperL (stripL l)) summaryMark = true
      · rw [if_pos h1]
        exact ih Mode.summary
      · rw [if_neg h1]
        by_cases h2 : hasSub (upperL (stripL l)) actionMark = true
        · rw [if_pos h2]
          exact ih Mode.action
        · rw [if_neg h2]
          by_cases h3 : startsBullet (stripL l) = true
          · rw [if_pos h3]
            exact ih Mode.noMode
          · rw [if_neg h3]
            exact ih Mode.noMode

/-- The code's summary accumulator equals the newline-terminated concatenation
of the specification's collected summary lines, and the item lists agree. -/
theorem scanCode_eq (ls : List (List Char)) (sec : Mode) (acc : List Char)
    (items : List (List Char)) :
    scanCode ls sec acc items =
      (acc ++ joinNL (scanSpec ls sec).1, items ++ (scanSpec ls sec).2) := by
  induction ls generalizing sec acc items with
  | nil => simp [scanCode, scanSpec, joinNL]
  | cons l ls ih =>
    cases sec with
    | summary =>
      simp only [scanCode, scanSpec]
      by_cases h1 : hasSub (upperL (stripL l)) summaryMark = true
      · simp only [if_pos h1]
        exact ih Mode.summary acc items
      · simp only [if_neg h1]
        by_cases h2 : hasSub (upperL (stripL l)) actionMark = true
        · simp only [if_pos h2]
          exact ih Mode.action acc items
        · simp only [if_neg h2]
          by_cases h3 : startsBullet (stripL l) = true
          · simp only [if_pos h3]
            rw [ih]
            simp [joinNL]
          · simp only [if_neg h3]
            exact ih Mode.summary acc items
    | action =>
      simp only [scanCode, scanSpec]
      by_cases h1 : hasSub (upperL (stripL l)) summaryMark = true
      · simp only [if_pos h1]
        exact ih Mode.summary acc items
      · simp only [if_neg h1]
        by_cases h2 : hasSub (upperL (stripL l)) actionMark = true
        · simp only [if_pos h2]
          exact ih Mode.action acc items
        · simp only [if_neg h2]
          by_cases h3 : startsBullet (stripL l) = true
          · simp only [if_pos h3]
            by_cases h4 : (stripL (lstripBullet (stripL l))).isEmpty = true
            · simp only [if_pos h4]
              exact ih Mode.action acc items
            · simp only [if_neg h4]
              rw [ih]
              simp
          · simp only [if_neg h3]
            exact ih Mode.action acc items
    | noMode =>
      simp only [scanCode, scanSpec]
      by_cases h1 : hasSub (upperL (stripL l)) summaryMark = true
      · simp only [if_pos h1]
        exact ih Mode.summary acc items
      · simp only [if_neg h1]
        by_cases h2 : hasSub (upperL (stripL l)) actionMark = true
        · simp only [if_pos h2]
          exact ih Mode.action acc items
        · simp only [if_neg h2]
          by_cases h3 : startsBullet (stripL l) = true
          · simp only [if_pos h3]
            exact ih Mode.noMode acc items
          · simp only [if_neg h3]
            exact ih Mode.noMode acc items

/-- The accumulator shape is the newline-join followed by one final newline. -/
theorem joinNL_eq_interNL (ss : List (List Char)) (h : ss ≠ []) :
    joinNL ss = interNL ss ++ ['\n'] := by
  induction ss with
  | nil => exact absurd rfl h
  | cons s rest ih =>
    cases rest with
    | nil => simp [joinNL, interNL]
    | cons s2 rest2 =>
      have hj : joinNL (s :: s2 :: rest2) = s ++ '\n' :: joinNL (s2 :: rest2) := rfl
      have hi : interNL (s :: s2 :: rest2) = s ++ '\n' :: interNL (s2 :: rest2) := rfl
      rw [hj, hi, ih (by simp)]
      simp

/-- Newline-joining clean lines yields a clean line. -/
theorem interNL_clean (ss : List (List Char)) (h : ∀ s ∈ ss, CleanLine s)
    (hne : ss ≠ []) : CleanLine (interNL ss) := by
  induction ss with
  | nil => exact absurd rfl hne
  | cons s rest ih =>
    obtain ⟨hs1, hs2, hs3⟩ := h s (by simp)
    cases rest with
    | nil => exact ⟨hs1, hs2, hs3⟩
    | cons s2 rest2 =>
      obtain ⟨ht1, ht2, ht3⟩ := ih (fun x hx => h x (by simp [hx])) (by simp)
      simp only [interNL]
      refine ⟨by simp [hs1], ?_, ?_⟩
      · intro a ha
        rw [List.head?_append_of_ne_nil _ hs1] at ha
        exact hs2 a ha
      · intro a ha
        rw [List.getLast?_append_of_ne_nil _ (by simp)] at ha
        rw [show ('\n' :: interNL (s2 :: rest2)) = ['\n'] ++ interNL (s2 :: rest2)
              from rfl,
            List.getLast?_append_of_ne_nil _ ht1] at ha
        exact ht3 a ha

/-- Stripping a clean line followed by one newline recovers the clean line. -/
theorem stripL_clean_append_nl (x : List Char) (hx : CleanLine x) :
    stripL (x ++ ['\n']) = x := by
  obtain ⟨h1, h2, h3⟩ := hx
  unfold stripL
  rw [dropWhile_eq_self_of_head isPySpace (x ++ ['\n']) (by
    intro a ha
    rw [List.head?_append_of_ne_nil _ h1] at ha
    exact h2 a ha)]
  rw [List.reverse_append]
  simp only [List.reverse_cons, List.reverse_nil, List.nil_append,
    List.singleton_append]
  rw [List.dropWhile_cons_of_pos (by decide)]
  rw [dropWhile_eq_self_of_head isPySpace x.reverse (by
    intro a ha
    rw [List.head?_reverse] at ha
    exact h3 a ha)]
  exact List.reverse_reverse x

/-- C5: the parser is the line-scanning state machine of the specification:
the action items are exactly the marker-stripped non-empty bulleted lines
collected in action mode; when at least one summary line was collected, the
summary is exactly those bulleted lines newline-joined; when none was, the
summary is the whole (whitespace-trimmed) raw response, so a response with no
recognizable section markers yields the whole response as the summary and an
empty action-item list. -/
theorem analyze_parse_spec (analysis : String) :
    ((analyze_transcript (Except.ok analysis)).action_items =
      ((scanSpec (splitNL analysis.data) Mode.noMode).2).map
        (fun l => (⟨l⟩ : String))) ∧
    ((scanSpec (splitNL analysis.data) Mode.noMode).1 = [] →
      (analyze_transcript (Except.ok analysis)).summary = pyStrip analysis) ∧
    ((scanSpec (splitNL analysis.data) Mode.noMode).1 ≠ [] →
      (analyze_transcript (Except.ok analysis)).summary =
        (⟨interNL (scanSpec (splitNL analysis.data) Mode.noMode).1⟩ : String)) := by
  have hrun := scanCode_eq (splitNL analysis.data) Mode.noMode [] []
  refine ⟨?_, ?_, ?_⟩
  · simp only [analyze_transcript, hrun, List.nil_append]
  · intro h
    simp only [analyze_transcript, hrun, List.nil_append, h, joinNL,
      List.isEmpty_nil, if_pos]
    rfl
  · intro h
    have hclean := scanSpec_clean (splitNL analysis.data) Mode.noMode
    have hj := joinNL_eq_interNL _ h
    have hcl := interNL_clean _ hclean h
    have hne : (joinNL (scanSpec (splitNL analysis.data) Mode.noMode).1).isEmpty
        = false := by
      rw [hj]
      simp
    simp only [analyze_transcript, hrun, List.nil_append, hne, Bool.false_eq_true,
      if_false]
    rw [hj, stripL_clean_append_nl _ hcl]

/-- C5 witness: a response with a SUMMARY section of two bullets and an ACTION
ITEMS section with one blank bullet dropped, and a response with no section
markers at all. -/
theorem analyze_parse_spec_witness :
    ((analyze_transcript
        (Except.ok "SUMMARY:\n- alpha\n- beta\nACTION ITEMS:\n- do x\n-   \n* do y")).action_items =
      ((scanSpec (splitNL ("SUMMARY:\n- alpha\n- beta\nACTION ITEMS:\n- do x\n-   \n* do y" : String).data) Mode.noMode).2).map
        (fun l => (⟨l⟩ : String))) ∧
    ((analyze_transcript
        (Except.ok "SUMMARY:\n- alpha\n- beta\nACTION ITEMS:\n- do x\n-   \n* do y")).summary =
      (⟨interNL (scanSpec (splitNL ("SUMMARY:\n- alpha\n- beta\nACTION ITEMS:\n- do x\n-   \n* do y" : String).data) Mode.noMode).1⟩ : String)) ∧
    ((analyze_transcript (Except.ok "no markers here")).summary =
      pyStrip "no markers here") :=
  ⟨(analyze_parse_spec "SUMMARY:\n- alpha\n- beta\nACTION ITEMS:\n- do x\n-   \n* do y").1,
   (analyze_parse_spec "SUMMARY:\n- alpha\n- beta\nACTION ITEMS:\n- do x\n-   \n* do y").2.2
     (by decide),
   (analyze_parse_spec "no markers here").2.1 (by decide)⟩

/-! ### Analysis records and pipeline handlers
(`backend/models/text_analysis.py`, `backend/models/voice_analysis.py`,
`backend/routers/text.py`, `backend/routers/voice.py`) -/

/-- The HTTP error outcomes raised by the routers. -/
inductive HTTPError where
  | badRequest (detail : String)
  | forbidden (detail : String)
  | notFound (detail : String)
  deriving DecidableEq

/-- `TextAnalysis` from `backend/models/text_analysis.py`.  The Mongo document
id is a string parameter assigned at save time. -/
structure TextAnalysis where
  id : String
  user_id : String
  text : String
  summary : String
  action_items : List String
  character_count : Nat
  analyzed_at : PyDatetime
  deriving DecidableEq

/-- `VoiceAnalysis` from `backend/models/voice_analysis.py`. -/
structure VoiceAnalysis where
  id : String
  user_id : String
  file_name : String
  audio_url : String
  duration_seconds : Nat
  file_size_bytes : Nat
  transcript : String
  summary : String
  action_items : List String
  language : String
  created_at : PyDatetime
  deriving DecidableEq

/-- The database state a text request reads and writes: the requesting
account's stored document and the text-analysis collection. -/
structure TextState where
  user : User
  records : List TextAnalysis
  deriving DecidableEq

/-- The state a voice request reads and writes; `uploaded` records the URLs
pushed to the external object store (the upload side effect). -/
structure VoiceState where
  user : User
  records : List VoiceAnalysis
  uploaded : List String
  deriving DecidableEq

/-- The JSON body returned by `POST /api/text/analyze`. -/
structure TextResponse where
  id : String
  summary : String
  action_items : List String
  character_count : Nat
  analyzed_at : PyDatetime
  deriving DecidableEq

/-- The JSON body returned by `POST /api/voice/analyze`. -/
structure VoiceResponse where
  id : String
  file_name : String
  audio_url : String
  duration_seconds : Nat
  transcript : String
  summary : String
  action_items : List String
  language : String
  created_at : PyDatetime
  deriving DecidableEq

/-- `analyze_text` from `backend/routers/text.py`: reject empty (after strip)
input; reject input longer than 10000 characters when the plan is `free`; call
the summarizer, persist a `TextAnalysis` record, and return it.  The handler
performs no quota check and no usage increment.  `providerResponse` is the raw
summarization-provider outcome, `newId` the document id assigned at save,
`now` the wall clock. -/
def analyze_text (input_text : String) (providerResponse : Except String String)
    (newId : String) (now : PyDatetime) (st : TextState) :
    TextState × Except HTTPError TextResponse :=
  if pyStrip input_text = "" then
    (st, Except.error (HTTPError.badRequest "Text cannot be empty"))
  else if input_text.length > 10000 ∧ st.user.plan = "free" then
    (st, Except.error (HTTPError.forbidden "Text too long! Max 10,000 characters"))
  else
    let result := analyze_transcript providerResponse
    let ta : TextAnalysis :=
      { id := newId, user_id := st.user.id, text := input_text,
        summary := result.summary, action_items := result.action_items,
        character_count := input_text.length, analyzed_at := now }
    ({ st with records := ta :: st.records },
     Except.ok
       { id := newId, summary := result.summary,
         action_items := result.action_items,
         character_count := input_text.length, analyzed_at := now })

/-- The object-store upload result (`CloudinaryService.upload_audio`), with
`duration` already passed through `int(result.get("duration", 0))`. -/
structure UploadResult where
  url : String
  public_id : String
  duration : Nat
  deriving DecidableEq

/-- The transcription result (`whisper_service.transcribe_audio`). -/
structure WhisperResult where
  transcript : String
  language : String
  deriving DecidableEq

/-- Python `content_type.startswith('audio')`, at the character level. -/
def pyStartsWith (s pre : String) : Bool := pre.data.isPrefixOf s.data

/-- `analyze_voice` from `backend/routers/voice.py`: reject non-audio content
types; upload (side effect recorded in `uploaded`); compute the minute cost;
check the voice quota and abort with a quota message built from the in-memory
(post-reset) usage and limit if denied; transcribe, summarize, persist a
`VoiceAnalysis` record, then increment and save the account's voice usage. -/
def analyze_voice (content_type file_name : String) (file_size : Nat)
    (upload : UploadResult) (whisper : WhisperResult)
    (providerResponse : Except String String) (newId : String)
    (now : PyDatetime) (st : VoiceState) :
    VoiceState × Except HTTPError VoiceResponse :=
  if ¬ pyStartsWith content_type "audio" then
    (st, Except.error
      (HTTPError.badRequest "File must be audio (mp3, wav, m4a, etc.)"))
  else
    let st1 : VoiceState := { st with uploaded := upload.url :: st.uploaded }
    let duration_minutes := durationMinutes upload.duration
    let check := check_voice_limit st.user now (duration_minutes : Int)
    if check.2 = false then
      (st1, Except.error (HTTPError.forbidden
        ("Monthly limit exceeded! Used: " ++
         toString check.1.usage.voice_minutes_used ++ "/" ++
         toString check.1.limits.voice_minutes_per_month ++ " minutes")))
    else
      let result := analyze_transcript providerResponse
      let va : VoiceAnalysis :=
        { id := newId, user_id := check.1.id, file_name := file_name,
          audio_url := upload.url, duration_seconds := upload.duration,
          file_size_bytes := file_size, transcript := whisper.transcript,
          summary := result.summary, action_items := result.action_items,
          language := whisper.language, created_at := now }
      let st2 : VoiceState :=
        { st1 with
          records := va :: st1.records,
          user := increment_voice_usage check.1 (duration_minutes : Int) now }
      (st2,
       Except.ok
         { id := newId, file_name := file_name, audio_url := upload.url,
           duration_seconds := upload.duration,
           transcript := whisper.transcript, summary := result.summary,
           action_items := result.action_items, language := whisper.language,
           created_at := now })

/-! ### History accessors -/

/-- `TextAnalysis.get(analysis_id)`: look the document up by id. -/
def findTextAnalysis (records : List TextAnalysis) (analysis_id : String) :
    Option TextAnalysis :=
  records.find? (fun r => r.id == analysis_id)

/-- `VoiceAnalysis.get(analysis_id)`. -/
def findVoiceAnalysis (records : List VoiceAnalysis) (analysis_id : String) :
    Option VoiceAnalysis :=
  records.find? (fun r => r.id == analysis_id)

/-- Chronological order on the embedded datetimes (year, month, remainder). -/
def dtLeB (a b : PyDatetime) : Bool :=
  a.year < b.year ||
    (a.year == b.year &&
      (a.month < b.month || (a.month == b.month && a.rest ≤ b.rest)))

/-- Insert into a list sorted by `analyzed_at` descending. -/
def insertDescText (r : TextAnalysis) : List TextAnalysis → List TextAnalysis
  | [] => [r]
  | x :: xs =>
    if dtLeB x.analyzed_at r.analyzed_at then r :: x :: xs
    else x :: insertDescText r xs

/-- Sort by `analyzed_at` descending (the Mongo `.sort(-analyzed_at)`). -/
def sortDescText (l : List TextAnalysis) : List TextAnalysis :=
  l.foldr insertDescText []

/-- Insert into a list sorted by `created_at` descending. -/
def insertDescVoice (r : VoiceAnalysis) : List VoiceAnalysis → List VoiceAnalysis
  | [] => [r]
  | x :: xs =>
    if dtLeB x.created_at r.created_at then r :: x :: xs
    else x :: insertDescVoice r xs

/-- Sort by `created_at` descending (the Mongo `.sort(-created_at)`). -/
def sortDescVoice (l : List VoiceAnalysis) : List VoiceAnalysis :=
  l.foldr insertDescVoice []

/-- `GET /api/text/history`: the requesting user's records, newest first,
capped at 20.  The handler performs no writes, so the state is returned
unchanged. -/
def get_text_history (st : TextState) : TextState × List TextAnalysis :=
  (st, (sortDescText (st.records.filter (fun r => r.user_id == st.user.id))).take 20)

/-- `GET /api/voice/history`. -/
def get_voice_history (st : VoiceState) : VoiceState × List VoiceAnalysis :=
  (st, (sortDescVoice (st.records.filter (fun r => r.user_id == st.user.id))).take 20)

/-- `GET /api/text/{analysis_id}`: 404 when the id resolves to no document,
403 when the document's `user_id` differs from the requesting account, the
record otherwise.  No writes. -/
def get_text_analysis (analysis_id : String) (st : TextState) :
    TextState × Except HTTPError TextAnalysis :=
  match findTextAnalysis st.records analysis_id with
  | none => (st, Except.error (HTTPError.notFound "Analysis not found"))
  | some a =>
    if a.user_id ≠ st.user.id then
      (st, Except.error (HTTPError.forbidden "Not authorized"))
    else (st, Except.ok a)

/-- `DELETE /api/text/{analysis_id}`: same lookup and ownership check, then
the fetched document is deleted. -/
def delete_text_analysis (analysis_id : String) (st : TextState) :
    TextState × Except HTTPError String :=
  match findTextAnalysis st.records analysis_id with
  | none => (st, Except.error (HTTPError.notFound "Analysis not found"))
  | some a =>
    if a.user_id ≠ st.user.id then
      (st, Except.error (HTTPError.forbidden "Not authorized"))
    else
      ({ st with records := st.records.eraseP (fun r => r.id == analysis_id) },
       Except.ok "Analysis deleted successfully")

/-- `GET /api/voice/{analysis_id}`. -/
def get_voice_analysis (analysis_id : String) (st : VoiceState) :
    VoiceState × Except HTTPError VoiceAnalysis :=
  match findVoiceAnalysis st.records analysis_id with
  | none => (st, Except.error (HTTPError.notFound "Analysis not found"))
  | some a =>
    if a.user_id ≠ st.user.id then
      (st, Except.error (HTTPError.forbidden "Not authorized"))
    else (st, Except.ok a)

/-- `DELETE /api/voice/{analysis_id}`. -/
def delete_voice_analysis (analysis_id : String) (st : VoiceState) :
    VoiceState × Except HTTPError String :=
  match findVoiceAnalysis st.records analysis_id with
  | none => (st, Except.error (HTTPError.notFound "Analysis not found"))
  | some a =>
    if a.user_id ≠ st.user.id then
      (st, Except.error (HTTPError.forbidden "Not authorized"))
    else
      ({ st with records := st.records.eraseP (fun r => r.id == analysis_id) },
       Except.ok "Voice analysis deleted successfully")

/-- The document `signup` creates and saves: plan `free` and the pydantic
defaults for usage, limits and `is_active`.  `hash` models
`AuthService.hash_password(password)` and `newId` the id assigned at save. -/
def signupUser (email name hash newId : String) (now : PyDatetime) : User :=
  { id := newId, email := email, name := name, password_hash := hash,
    plan := "free", usage := defaultUsage now, limits := defaultLimits,
    is_active := true, created_at := now, updated_at := now }

/-- `signup` from `backend/routers/auth.py`: reject an already-registered
email, otherwise create and save the new `User` document. -/
def signup (db : List User) (email name hash newId : String) (now : PyDatetime) :
    Except HTTPError (List User × User) :=
  match db.find? (fun u => u.email == email) with
  | some _ => Except.error (HTTPError.badRequest "Email already registered")
  | none =>
    Except.ok (signupUser email name hash newId now :: db,
               signupUser email name hash newId now)

/-! ### Claim theorems about the pipelines, history access and signup -/

/-- C6: a summarization-provider error is never propagated: the result is the
fixed placeholder summary, an empty action-item list, and the error detail
recorded in the `full_analysis` diagnostic field; on any input passing
validation the pipeline therefore still persists a record (with the
placeholder summary) and succeeds. -/
theorem provider_error_masked (e input_text newId : String) (now : PyDatetime)
    (st : TextState) (h1 : pyStrip input_text ≠ "")
    (h2 : ¬(input_text.length > 10000 ∧ st.user.plan = "free")) :
    analyze_transcript (Except.error e) =
      { summary := placeholderSummary,
        action_items := [],
        full_analysis := "Error: " ++ e } ∧
    analyze_text input_text (Except.error e) newId now st =
      ({ st with records :=
          ({ id := newId, user_id := st.user.id, text := input_text,
             summary := placeholderSummary, action_items := [],
             character_count := input_text.length,
             analyzed_at := now } : TextAnalysis) :: st.records },
       Except.ok
         { id := newId, summary := placeholderSummary, action_items := [],
           character_count := input_text.length, analyzed_at := now }) := by
  constructor
  · rfl
  · unfold analyze_text
    rw [if_neg h1, if_neg h2]
    rfl

/-- C6 witness: a failing provider call (`boom`) on the valid input `hi`. -/
theorem provider_error_masked_witness :
    analyze_transcript (Except.error "boom") =
      { summary := placeholderSummary,
        action_items := [],
        full_analysis := "Error: boom" } ∧
    analyze_text "hi" (Except.error "boom") "t9" ⟨2026, 10, 17⟩
        { user := sampleUser, records := [] } =
      ({ user := sampleUser,
         records := [{ id := "t9", user_id := "u1", text := "hi",
                       summary := placeholderSummary, action_items := [],
                       character_count := 2, analyzed_at := ⟨2026, 10, 17⟩ }] },
       Except.ok
         { id := "t9", summary := placeholderSummary, action_items := [],
           character_count := 2, analyzed_at := ⟨2026, 10, 17⟩ }) :=
  provider_error_masked "boom" "hi" "t9" ⟨2026, 10, 17⟩
    { user := sampleUser, records := [] } (by decide) (by decide)


/-- A free-plan account whose text-analysis count has reached its monthly
limit (20 of 20), in October 2026. -/
def freeUserAtTextLimit : User :=
  { id := "u2", email := "b@example.com", name := "B", password_hash := "h",
    plan := "free",
    usage := { voice_minutes_used := 0, comments_analyzed := 20,
               last_reset := ⟨2026, 10, 3⟩ },
    limits := defaultLimits, is_active := true,
    created_at := ⟨2026, 10, 3⟩, updated_at := ⟨2026, 10, 3⟩ }

/-- C1: evaluation at the failing input.  A free-plan account at its text
quota (20/20, and indeed `check_comment_limit` would deny it) submits a valid
text request; `analyze_text` nevertheless succeeds, persists the record, and
leaves the account — in particular `comments_analyzed` — unchanged: the
handler performs no admission check and no usage increment. -/
theorem text_quota_not_enforced :
    analyze_text "hello" (Except.ok "SUMMARY:\n- hi") "t1" ⟨2026, 10, 17⟩
        { user := freeUserAtTextLimit, records := [] } =
      ({ user := freeUserAtTextLimit,
         records := [{ id := "t1", user_id := "u2", text := "hello",
                       summary := "- hi", action_items := [],
                       character_count := 5, analyzed_at := ⟨2026, 10, 17⟩ }] },
       Except.ok { id := "t1", summary := "- hi", action_items := [],
                   character_count := 5, analyzed_at := ⟨2026, 10, 17⟩ }) ∧
    (check_comment_limit freeUserAtTextLimit ⟨2026, 10, 17⟩).2 = false := by
  constructor
  · rfl
  · decide

/-- C3: when the voice admission check denies (non-unlimited plan, no pending
period reset, consumed minutes plus the computed cost exceed the limit), the
handler returns a quota-exceeded error whose message reports the consumed
minutes and the limit; the upload side effect has occurred, but no record is
persisted and the stored account is unchanged. -/
theorem voice_quota_denied_after_upload (content_type file_name : String)
    (file_size : Nat) (upload : UploadResult) (whisper : WhisperResult)
    (pr : Except String String) (newId : String) (now : PyDatetime)
    (st : VoiceState)
    (haudio : pyStartsWith content_type "audio" = true)
    (hplan : st.user.plan ≠ "pro") (hplan2 : st.user.plan ≠ "creator")
    (hm : st.user.usage.last_reset.month = now.month)
    (hy : st.user.usage.last_reset.year = now.year)
    (hover : ¬ st.user.usage.voice_minutes_used +
        (durationMinutes upload.duration : Int) ≤
        st.user.limits.voice_minutes_per_month) :
    analyze_voice content_type file_name file_size upload whisper pr newId now
        st =
      ({ st with uploaded := upload.url :: st.uploaded },
       Except.error (HTTPError.forbidden
         ("Monthly limit exceeded! Used: " ++
          toString st.user.usage.voice_minutes_used ++ "/" ++
          toString st.user.limits.voice_minutes_per_month ++ " minutes"))) := by
  have hreset := reset_noop st.user now hm hy
  have hcheck : check_voice_limit st.user now (durationMinutes upload.duration : Int)
      = (st.user, false) := by
    unfold check_voice_limit
    rw [hreset, if_neg (by push_neg; exact ⟨hplan, hplan2⟩)]
    rw [decide_eq_false hover]
  simp only [analyze_voice]
  rw [if_neg (by simp [haudio])]
  simp only [hcheck]
  simp

/-- A free-plan account with 29 of its 30 monthly voice minutes consumed. -/
def freeUserVoice29 : User :=
  { id := "u3", email := "c@example.com", name := "C", password_hash := "h",
    plan := "free",
    usage := { voice_minutes_used := 29, comments_analyzed := 0,
               last_reset := ⟨2026, 10, 3⟩ },
    limits := defaultLimits, is_active := true,
    created_at := ⟨2026, 10, 3⟩, updated_at := ⟨2026, 10, 3⟩ }

/-- C3 witness: the account at 29/30 submits a 150-second clip (2 minutes):
the upload is recorded, the denial message reads `29/30`, no record is
persisted and usage stays 29. -/
theorem voice_quota_denied_after_upload_witness :
    analyze_voice "audio/mpeg" "clip.mp3" 1000
        { url := "http://cdn/x", public_id := "pid", duration := 150 }
        { transcript := "t", language := "en" } (Except.ok "S") "v1"
        ⟨2026, 10, 17⟩ { user := freeUserVoice29, records := [], uploaded := [] } =
      ({ user := freeUserVoice29, records := [], uploaded := ["http://cdn/x"] },
       Except.error (HTTPError.forbidden
         "Monthly limit exceeded! Used: 29/30 minutes")) :=
  (voice_quota_denied_after_upload "audio/mpeg" "clip.mp3" 1000
      { url := "http://cdn/x", public_id := "pid", duration := 150 }
      { transcript := "t", language := "en" } (Except.ok "S") "v1"
      ⟨2026, 10, 17⟩ { user := freeUserVoice29, records := [], uploaded := [] }
      (by decide) (by decide) (by decide) rfl rfl (by decide)).trans rfl

/-- After erasing the unique record carrying a key, a lookup by that key
fails, provided the keys were pairwise distinct. -/
theorem find?_eraseP_key {α : Type} (key : α → String) (x : String) :
    ∀ l : List α, (l.map key).Nodup →
      (∃ a, l.find? (fun r => key r == x) = some a) →
      (l.eraseP (fun r => key r == x)).find? (fun r => key r == x) = none := by
  intro l
  induction l with
  | nil => simp
  | cons r t ih =>
    intro hnodup hex
    rw [List.map_cons, List.nodup_cons] at hnodup
    by_cases hr : (key r == x) = true
    · have he : (r :: t).eraseP (fun r2 => key r2 == x) = t := by
        simp [List.eraseP_cons, hr]
      rw [he]
      have hx : key r = x := by simpa using hr
      apply List.find?_eq_none.mpr
      intro b hb hbx
      have hbx2 : key b = x := by simpa using hbx
      exact hnodup.1 (List.mem_map.mpr ⟨b, hb, by rw [hbx2, hx]⟩)
    · have he : (r :: t).eraseP (fun r2 => key r2 == x) =
          r :: t.eraseP (fun r2 => key r2 == x) := by
        simp [List.eraseP_cons, hr]
      have hf : ∀ l2 : List α, (r :: l2).find? (fun r2 => key r2 == x) =
          l2.find? (fun r2 => key r2 == x) := by
        intro l2
        simp [List.find?_cons, hr]
      rw [he, hf]
      apply ih hnodup.2
      obtain ⟨a, ha⟩ := hex
      rw [hf] at ha
      exact ⟨a, ha⟩

/-- C7: for get and delete on both analysis kinds: a nonexistent id yields
not-found; an existing record owned by a different account yields forbidden
(and delete leaves the store unchanged); the owner gets the record, and delete
removes exactly it (under unique ids the id no longer resolves).  The
not-found and forbidden outcomes are distinct. -/
theorem history_ownership (ts : TextState) (vs : VoiceState)
    (analysis_id : String) :
    (findTextAnalysis ts.records analysis_id = none →
      get_text_analysis analysis_id ts =
        (ts, Except.error (HTTPError.notFound "Analysis not found")) ∧
      delete_text_analysis analysis_id ts =
        (ts, Except.error (HTTPError.notFound "Analysis not found"))) ∧
    (∀ a, findTextAnalysis ts.records analysis_id = some a →
      a.user_id ≠ ts.user.id →
      get_text_analysis analysis_id ts =
        (ts, Except.error (HTTPError.forbidden "Not authorized")) ∧
      delete_text_analysis analysis_id ts =
        (ts, Except.error (HTTPError.forbidden "Not authorized"))) ∧
    (∀ a, findTextAnalysis ts.records analysis_id = some a →
      a.user_id = ts.user.id →
      get_text_analysis analysis_id ts = (ts, Except.ok a) ∧
      (delete_text_analysis analysis_id ts).1.records =
        ts.records.eraseP (fun r => r.id == analysis_id) ∧
      (delete_text_analysis analysis_id ts).2 =
        Except.ok "Analysis deleted successfully" ∧
      ((ts.records.map (fun r => r.id)).Nodup →
        findTextAnalysis (delete_text_analysis analysis_id ts).1.records
          analysis_id = none)) ∧
    (findVoiceAnalysis vs.records analysis_id = none →
      get_voice_analysis analysis_id vs =
        (vs, Except.error (HTTPError.notFound "Analysis not found")) ∧
      delete_voice_analysis analysis_id vs =
        (vs, Except.error (HTTPError.notFound "Analysis not found"))) ∧
    (∀ a, findVoiceAnalysis vs.records analysis_id = some a →
      a.user_id ≠ vs.user.id →
      get_voice_analysis analysis_id vs =
        (vs, Except.error (HTTPError.forbidden "Not authorized")) ∧
      delete_voice_analysis analysis_id vs =
        (vs, Except.error (HTTPError.forbidden "Not authorized"))) ∧
    (∀ a, findVoiceAnalysis vs.records analysis_id = some a →
      a.user_id = vs.user.id →
      get_voice_analysis analysis_id vs = (vs, Except.ok a) ∧
      (delete_voice_analysis analysis_id vs).1.records =
        vs.records.eraseP (fun r => r.id == analysis_id) ∧
      (delete_voice_analysis analysis_id vs).2 =
        Except.ok "Voice analysis deleted successfully" ∧
      ((vs.records.map (fun r => r.id)).Nodup →
        findVoiceAnalysis (delete_voice_analysis analysis_id vs).1.records
          analysis_id = none)) ∧
    HTTPError.notFound "Analysis not found" ≠
      HTTPError.forbidden "Not authorized" := by
  refine ⟨?_, ?_, ?_, ?_, ?_, ?_, by simp⟩
  · intro h
    constructor <;> simp [get_text_analysis, delete_text_analysis, h]
  · intro a h hne
    constructor <;>
      simp [get_text_analysis, delete_text_analysis, h, if_pos hne]
  · intro a h howner
    have hno : ¬ a.user_id ≠ ts.user.id := by simp [howner]
    refine ⟨?_, ?_, ?_, ?_⟩
    · simp [get_text_analysis, h, if_neg hno]
    · simp [delete_text_analysis, h, if_neg hno]
    · simp [delete_text_analysis, h, if_neg hno]
    · intro hnodup
      have hres : (delete_text_analysis analysis_id ts).1.records =
          ts.records.eraseP (fun r => r.id == analysis_id) := by
        simp [delete_text_analysis, h, if_neg hno]
      rw [hres]
      exact find?_eraseP_key TextAnalysis.id analysis_id ts.records hnodup ⟨a, h⟩
  · intro h
    constructor <;> simp [get_voice_analysis, delete_voice_analysis, h]
  · intro a h hne
    constructor <;>
      simp [get_voice_analysis, delete_voice_analysis, h, if_pos hne]
  · intro a h howner
    have hno : ¬ a.user_id ≠ vs.user.id := by simp [howner]
    refine ⟨?_, ?_, ?_, ?_⟩
    · simp [get_voice_analysis, h, if_neg hno]
    · simp [delete_voice_analysis, h, if_neg hno]
    · simp [delete_voice_analysis, h, if_neg hno]
    · intro hnodup
      have hres : (delete_voice_analysis analysis_id vs).1.records =
          vs.records.eraseP (fun r => r.id == analysis_id) := by
        simp [delete_voice_analysis, h, if_neg hno]
      rw [hres]
      exact find?_eraseP_key VoiceAnalysis.id analysis_id vs.records hnodup ⟨a, h⟩

/-- A text record owned by `sampleUser` (`u1`) and one owned by `u9`. -/
def wRecA : TextAnalysis :=
  { id := "t1", user_id := "u1", text := "x", summary := "s",
    action_items := [], character_count := 1, analyzed_at := ⟨2026, 10, 5⟩ }

/-- A text record owned by a different account. -/
def wRecB : TextAnalysis :=
  { id := "t2", user_id := "u9", text := "y", summary := "s2",
    action_items := [], character_count := 1, analyzed_at := ⟨2026, 10, 6⟩ }

/-- A two-record text store accessed by `sampleUser`. -/
def wTextState : TextState := { user := sampleUser, records := [wRecA, wRecB] }

/-- A voice record owned by a different account than `sampleUser`. -/
def wRecV : VoiceAnalysis :=
  { id := "v9", user_id := "u9", file_name := "f.mp3", audio_url := "u",
    duration_seconds := 10, file_size_bytes := 5, transcript := "t",
    summary := "s", action_items := [], language := "en",
    created_at := ⟨2026, 10, 5⟩ }

/-- A one-record voice store accessed by `sampleUser`. -/
def wVoiceState : VoiceState :=
  { user := sampleUser, records := [wRecV], uploaded := [] }

/-- C7 witness: the owner retrieves `t1`; a nonexistent id `zz` is not-found;
the foreign voice record `v9` is forbidden. -/
theorem history_ownership_witness :
    get_text_analysis "t1" wTextState = (wTextState, Except.ok wRecA) ∧
    get_text_analysis "zz" wTextState =
      (wTextState, Except.error (HTTPError.notFound "Analysis not found")) ∧
    get_voice_analysis "v9" wVoiceState =
      (wVoiceState, Except.error (HTTPError.forbidden "Not authorized")) :=
  ⟨((history_ownership wTextState wVoiceState "t1").2.2.1 wRecA rfl rfl).1,
   ((history_ownership wTextState wVoiceState "zz").1 rfl).1,
   ((history_ownership wTextState wVoiceState "v9").2.2.2.2.1 wRecV rfl
      (by decide)).1⟩

/-- C9: listing, getting and deleting analysis records never modify the
requesting account's stored document — in particular its usage ledger: the
read-only handlers return the state unchanged, and the deletes touch only the
record collection, so no deletion refunds previously charged usage. -/
theorem history_ops_frame (ts : TextState) (vs : VoiceState)
    (analysis_id : String) :
    (get_text_history ts).1 = ts ∧
    (get_voice_history vs).1 = vs ∧
    (get_text_analysis analysis_id ts).1 = ts ∧
    (get_voice_analysis analysis_id vs).1 = vs ∧
    (delete_text_analysis analysis_id ts).1.user = ts.user ∧
    (delete_voice_analysis analysis_id vs).1.user = vs.user := by
  refine ⟨rfl, rfl, ?_, ?_, ?_, ?_⟩
  · cases h : findTextAnalysis ts.records analysis_id with
    | none => simp [get_text_analysis, h]
    | some a =>
      by_cases hne : a.user_id ≠ ts.user.id <;>
        simp [get_text_analysis, h, hne]
  · cases h : findVoiceAnalysis vs.records analysis_id with
    | none => simp [get_voice_analysis, h]
    | some a =>
      by_cases hne : a.user_id ≠ vs.user.id <;>
        simp [get_voice_analysis, h, hne]
  · cases h : findTextAnalysis ts.records analysis_id with
    | none => simp [delete_text_analysis, h]
    | some a =>
      by_cases hne : a.user_id ≠ ts.user.id <;>
        simp [delete_text_analysis, h, hne]
  · cases h : findVoiceAnalysis vs.records analysis_id with
    | none => simp [delete_voice_analysis, h]
    | some a =>
      by_cases hne : a.user_id ≠ vs.user.id <;>
        simp [delete_voice_analysis, h, hne]

/-- C10: every account created by `signup` starts on plan `free`, active, with
a zeroed usage ledger and the default limits of 30 voice minutes and 20 text
analyses per month. -/
theorem signup_defaults (db : List User) (email name hash newId : String)
    (now : PyDatetime) (h : db.find? (fun u => u.email == email) = none) :
    ∃ db2 u, signup db email name hash newId now = Except.ok (db2, u) ∧
      u.plan = "free" ∧ u.is_active = true ∧
      u.usage.voice_minutes_used = 0 ∧ u.usage.comments_analyzed = 0 ∧
      u.usage.last_reset = now ∧
      u.limits.voice_minutes_per_month = 30 ∧ u.limits.comments_per_month = 20 := by
  refine ⟨signupUser email name hash newId now :: db,
    signupUser email name hash newId now, ?_, rfl, rfl, rfl, rfl, rfl, rfl, rfl⟩
  unfold signup
  rw [h]

/-- C10 witness: signing up on an empty database. -/
theorem signup_defaults_witness :
    ∃ db2 u,
      signup [] "d@example.com" "D" "hash" "u4" ⟨2026, 10, 17⟩ =
          Except.ok (db2, u) ∧
        u.plan = "free" ∧ u.is_active = true ∧
        u.usage.voice_minutes_used = 0 ∧ u.usage.comments_analyzed = 0 ∧
        u.usage.last_reset = ⟨2026, 10, 17⟩ ∧
        u.limits.voice_minutes_per_month = 30 ∧ u.limits.comments_per_month = 20 :=
  signup_defaults [] "d@example.com" "D" "hash" "u4" ⟨2026, 10, 17⟩ rfl

end SocialSieve
